import Mathlib

/-!
A shallow embedding of the request-orchestration helpers of the eas-sdk
repository (src/test/test/helpers/eas.ts) together with a spec-modelled
offchain signing core, and proofs of the specification claims about them.

Machine integers of the source (JS bigint / number) are modelled as Nat;
byte strings, addresses, schema identifiers and UIDs are modelled as
String; JS `undefined` is modelled as `Option.none`.  External calls made
by the orchestrator (nonce queries, signing, submission, validity checks)
are recorded in an event trace; a thrown JS `Error` is modelled as an
`Outcome` whose `error` field carries the message and whose `events`
field holds the externally visible calls made before the throw.
-/

/-- `NO_EXPIRATION = 0` (declared in dist/eas.d.ts). -/
def NO_EXPIRATION : Nat := 0

/-- Modelled from the spec: the "zero payload" sentinel ("empty byte
sequence"), the `ZERO_BYTES` constant imported from utils/Constants
(not among the provided sources). -/
def ZERO_BYTES : String := "0x"

/-- Modelled from the spec: the "zero reference UID" sentinel ("a defined
all-zero identifier of fixed width"), the `ZERO_BYTES32` constant imported
from utils/Constants (not among the provided sources): 32 zero bytes. -/
def ZERO_BYTES32 : String :=
  "0x0000000000000000000000000000000000000000000000000000000000000000"

/-- The `SignatureType` enum of src/test/test/helpers/eas.ts. -/
inductive SignatureType where
  | direct
  | delegated
  | delegatedProxy
  | offchain
deriving DecidableEq, Repr

/-- `AttestationRequestData` from eas.ts / dist/eas.d.ts.  All optional
fields (including `data`, which the helper defaults even though the
declaration marks it required) are modelled as `Option`. -/
structure AttestationRequestData where
  recipient : String
  data : Option String
  expirationTime : Option Nat
  revocable : Option Bool
  refUID : Option String
  value : Option Nat
deriving DecidableEq, Repr

/-- `RevocationRequestData`: the uid to revoke and an optional value. -/
structure RevocationRequestData where
  uid : String
  value : Option Nat
deriving DecidableEq, Repr

/-- `MultiAttestationRequest`: one schema with a batch of request data. -/
structure MultiAttestationRequest where
  schema : String
  data : List AttestationRequestData
deriving DecidableEq, Repr

/-- `MultiRevocationRequest`: one schema with a batch of revocation data. -/
structure MultiRevocationRequest where
  schema : String
  data : List RevocationRequestData
deriving DecidableEq, Repr

/-- `RequestOptions` from eas.ts (`AttestationOptions` and
`RevocationOptions` add nothing the helpers read; the unused `bump` field
is omitted).  `from` is a reserved word in Lean, hence `fromAddr`. -/
structure RequestOptions where
  signatureType : Option SignatureType
  deadline : Option Nat
  fromAddr : String
  value : Option Nat
  maxPriorityFeePerGas : Option Nat
  maxFeePerGas : Option Nat
deriving DecidableEq, Repr

/-- The attestation request data after the helper's destructuring defaults
(eas.ts lines 58–65) have been applied. -/
structure ResolvedAttestationRequestData where
  recipient : String
  expirationTime : Nat
  revocable : Bool
  refUID : String
  data : String
  value : Nat
deriving DecidableEq, Repr

/-- The destructuring defaults of `expectAttestation` (eas.ts lines 58–65):
`expirationTime = NO_EXPIRATION`, `revocable = true`,
`refUID = ZERO_BYTES32`, `data = ZERO_BYTES`, `value = 0n`. -/
def resolveAttestationRequestData (r : AttestationRequestData) :
    ResolvedAttestationRequestData where
  recipient := r.recipient
  expirationTime := r.expirationTime.getD NO_EXPIRATION
  revocable := r.revocable.getD true
  refUID := r.refUID.getD ZERO_BYTES32
  data := r.data.getD ZERO_BYTES
  value := r.value.getD 0

/-- The fee-override object the helpers build; the source stores the two
fees as decimal strings (`maxPriorityFeePerGas?.toString()`). -/
structure Overrides where
  maxPriorityFeePerGas : String
  maxFeePerGas : String
deriving DecidableEq, Repr

/-- JS truthiness of an optional bigint: `undefined` and `0n` are falsy,
every other bigint is truthy. -/
def bigintTruthy : Option Nat → Bool
  | none => false
  | some v => v != 0

/-- JS `bigint.toString()`: decimal representation. -/
def bigintToString (v : Nat) : String := toString v

/-- The override construction shared by all four helpers (eas.ts lines
76–79, 222–225, 363–366, 446–449):
`maxPriorityFeePerGas && maxFeePerGas ? { ..toString() } : undefined`. -/
def mkOverrides (maxPriorityFeePerGas maxFeePerGas : Option Nat) :
    Option Overrides :=
  if bigintTruthy maxPriorityFeePerGas && bigintTruthy maxFeePerGas then
    some { maxPriorityFeePerGas := bigintToString (maxPriorityFeePerGas.getD 0)
           maxFeePerGas := bigintToString (maxFeePerGas.getD 0) }
  else
    none

/-- Message of a delegated attestation signature: the fields passed to
`signDelegatedAttestation` (eas.ts lines 95–106, 248–259). -/
structure DelegatedAttestationParams where
  schema : String
  recipient : String
  expirationTime : Nat
  revocable : Bool
  refUID : String
  data : Option String
  nonce : Nat
deriving DecidableEq, Repr

/-- Message of a delegated-proxy attestation signature: deadline-bound,
no nonce (eas.ts lines 131–142, 295–306). -/
structure DelegatedProxyAttestationParams where
  schema : String
  recipient : String
  expirationTime : Nat
  revocable : Bool
  refUID : String
  data : Option String
  deadline : Nat
deriving DecidableEq, Repr

/-- Message of a delegated revocation signature (eas.ts lines 378–381,
469). -/
structure DelegatedRevocationParams where
  schema : String
  uid : String
  nonce : Nat
deriving DecidableEq, Repr

/-- Message of a delegated-proxy revocation signature (eas.ts lines 405,
504–507). -/
structure DelegatedProxyRevocationParams where
  schema : String
  uid : String
  deadline : Nat
deriving DecidableEq, Repr

/-- Externally visible calls made by the orchestration helpers. -/
inductive EasEvent where
  | getNonce (address : String)
  | signDelegatedAttestation (p : DelegatedAttestationParams)
  | verifyDelegatedAttestationSignature (address : String)
  | signDelegatedProxyAttestation (p : DelegatedProxyAttestationParams)
  | verifyDelegatedProxyAttestationSignature (address : String)
  | signDelegatedRevocation (p : DelegatedRevocationParams)
  | verifyDelegatedRevocationSignature (address : String)
  | signOffchainAttestationCall (address : String)
  | verifyOffchainAttestationSignatureCall (address : String)
  | signDelegatedProxyRevocation (p : DelegatedProxyRevocationParams)
  | verifyDelegatedProxyRevocationSignature (address : String)
  | submitAttest (schema : String) (d : ResolvedAttestationRequestData)
      (overrides : Option Overrides)
  | submitAttestByDelegation (schema : String) (overrides : Option Overrides)
  | submitAttestByDelegationProxy (schema : String)
      (overrides : Option Overrides)
  | submitMultiAttest
  | submitMultiAttestByDelegation (overrides : Option Overrides)
  | submitMultiAttestByDelegationProxy (overrides : Option Overrides)
  | submitRevoke (overrides : Option Overrides)
  | submitRevokeByDelegation (overrides : Option Overrides)
  | submitRevokeByDelegationProxy (overrides : Option Overrides)
  | submitMultiRevoke
  | submitMultiRevokeByDelegation (overrides : Option Overrides)
  | submitMultiRevokeByDelegationProxy (overrides : Option Overrides)
  | isAttestationValid (uid : String)
  | isAttestationRevoked (uid : String)
  | getAttester (uid : String)
deriving DecidableEq, Repr

/-- Responses of the external collaborators during one helper run: the
nonce `getNonce` returns, the uid(s) `tx.wait()` returns, whether a proxy
is configured for the active chain (`getEIP712Proxy`), and the current
chain time (`latest()`). -/
structure Env where
  nonce : Nat
  uid : String
  uids : List String
  proxy : Option String
  now : Nat
deriving DecidableEq, Repr

/-- Result of one helper run: the trace of external calls it made and,
when it threw, the message of the thrown `Error`. -/
structure Outcome where
  events : List EasEvent
  error : Option String
deriving DecidableEq, Repr

/-- The per-item body of the delegated multi-attestation loop (eas.ts
lines 246–266): resolve the optional fields with `??` defaults, sign with
the running nonce, verify, then increment the local nonce.  Returns the
emitted events and the nonce after the batch. -/
def delegatedAttestItems (schema sender : String) :
    Nat → List AttestationRequestData → List EasEvent × Nat
  | nonce, [] => ([], nonce)
  | nonce, request :: rest =>
      let params : DelegatedAttestationParams :=
        { schema := schema
          recipient := request.recipient
          expirationTime := request.expirationTime.getD NO_EXPIRATION
          revocable := request.revocable.getD true
          refUID := request.refUID.getD ZERO_BYTES32
          data := request.data
          nonce := nonce }
      let next := delegatedAttestItems schema sender (nonce + 1) rest
      (EasEvent.signDelegatedAttestation params ::
        EasEvent.verifyDelegatedAttestationSignature sender :: next.1,
       next.2)

/-- The outer loop of the delegated multi-attestation case (eas.ts lines
243–274): the local nonce threads across schema groups. -/
def delegatedAttestGroups (sender : String) :
    Nat → List MultiAttestationRequest → List EasEvent × Nat
  | nonce, [] => ([], nonce)
  | nonce, group :: rest =>
      let inner := delegatedAttestItems group.schema sender nonce group.data
      let next := delegatedAttestGroups sender inner.2 rest
      (inner.1 ++ next.1, next.2)

/-- The per-item body of the delegated-proxy multi-attestation loop
(eas.ts lines 294–311): deadline-bound, no nonce. -/
def proxyAttestItems (schema sender : String) (deadline : Nat) :
    List AttestationRequestData → List EasEvent
  | [] => []
  | request :: rest =>
      let params : DelegatedProxyAttestationParams :=
        { schema := schema
          recipient := request.recipient
          expirationTime := request.expirationTime.getD NO_EXPIRATION
          revocable := request.revocable.getD true
          refUID := request.refUID.getD ZERO_BYTES32
          data := request.data
          deadline := deadline }
      EasEvent.signDelegatedProxyAttestation params ::
        EasEvent.verifyDelegatedProxyAttestationSignature sender ::
        proxyAttestItems schema sender deadline rest

/-- The outer loop of the delegated-proxy multi-attestation case (eas.ts
lines 291–320). -/
def proxyAttestGroups (sender : String) (deadline : Nat) :
    List MultiAttestationRequest → List EasEvent
  | [] => []
  | group :: rest =>
      proxyAttestItems group.schema sender deadline group.data ++
        proxyAttestGroups sender deadline rest

/-- The per-item body of the delegated multi-revocation loop (eas.ts
lines 467–476): sign `{schema, uid, nonce}` with the running nonce,
verify, increment the local nonce. -/
def delegatedRevokeItems (schema sender : String) :
    Nat → List RevocationRequestData → List EasEvent × Nat
  | nonce, [] => ([], nonce)
  | nonce, request :: rest =>
      let params : DelegatedRevocationParams :=
        { schema := schema, uid := request.uid, nonce := nonce }
      let next := delegatedRevokeItems schema sender (nonce + 1) rest
      (EasEvent.signDelegatedRevocation params ::
        EasEvent.verifyDelegatedRevocationSignature sender :: next.1,
       next.2)

/-- The outer loop of the delegated multi-revocation case (eas.ts lines
464–484). -/
def delegatedRevokeGroups (sender : String) :
    Nat → List MultiRevocationRequest → List EasEvent × Nat
  | nonce, [] => ([], nonce)
  | nonce, group :: rest =>
      let inner := delegatedRevokeItems group.schema sender nonce group.data
      let next := delegatedRevokeGroups sender inner.2 rest
      (inner.1 ++ next.1, next.2)

/-- The per-item body of the delegated-proxy multi-revocation loop
(eas.ts lines 503–512). -/
def proxyRevokeItems (schema sender : String) (deadline : Nat) :
    List RevocationRequestData → List EasEvent
  | [] => []
  | request :: rest =>
      let params : DelegatedProxyRevocationParams :=
        { schema := schema, uid := request.uid, deadline := deadline }
      EasEvent.signDelegatedProxyRevocation params ::
        EasEvent.verifyDelegatedProxyRevocationSignature sender ::
        proxyRevokeItems schema sender deadline rest

/-- The outer loop of the delegated-proxy multi-revocation case (eas.ts
lines 500–521). -/
def proxyRevokeGroups (sender : String) (deadline : Nat) :
    List MultiRevocationRequest → List EasEvent
  | [] => []
  | group :: rest =>
      proxyRevokeItems group.schema sender deadline group.data ++
        proxyRevokeGroups sender deadline rest

/-- The validity checks the multi-revocation helper runs after the switch
(eas.ts lines 529–534): for every input uid, `isAttestationValid` then
`isAttestationRevoked`. -/
def revocationPostChecks (requests : List MultiRevocationRequest) :
    List EasEvent :=
  requests.flatMap fun group =>
    group.data.flatMap fun request =>
      [EasEvent.isAttestationValid request.uid,
       EasEvent.isAttestationRevoked request.uid]

/-- `expectAttestation` (eas.ts lines 52–207): the single-attestation
orchestrator, dispatching on the signature style. -/
def expectAttestation (schema : String) (request : AttestationRequestData)
    (options : RequestOptions) (env : Env) : Outcome :=
  let r := resolveAttestationRequestData request
  let signatureType := options.signatureType.getD SignatureType.direct
  let deadline := options.deadline.getD NO_EXPIRATION
  let overrides := mkOverrides options.maxPriorityFeePerGas options.maxFeePerGas
  match signatureType with
  | SignatureType.direct =>
      { events := [EasEvent.submitAttest schema r overrides,
                   EasEvent.isAttestationValid env.uid]
        error := none }
  | SignatureType.delegated =>
      let params : DelegatedAttestationParams :=
        { schema := schema
          recipient := r.recipient
          expirationTime := r.expirationTime
          revocable := r.revocable
          refUID := r.refUID
          data := some r.data
          nonce := env.nonce }
      { events := [EasEvent.getNonce options.fromAddr,
                   EasEvent.signDelegatedAttestation params,
                   EasEvent.verifyDelegatedAttestationSignature options.fromAddr,
                   EasEvent.submitAttestByDelegation schema overrides,
                   EasEvent.isAttestationValid env.uid]
        error := none }
  | SignatureType.delegatedProxy =>
      match env.proxy with
      | none => { events := [], error := some "Invalid proxy" }
      | some _ =>
          let params : DelegatedProxyAttestationParams :=
            { schema := schema
              recipient := r.recipient
              expirationTime := r.expirationTime
              revocable := r.revocable
              refUID := r.refUID
              data := some r.data
              deadline := deadline }
          { events := [EasEvent.signDelegatedProxyAttestation params,
                       EasEvent.verifyDelegatedProxyAttestationSignature
                         options.fromAddr,
                       EasEvent.submitAttestByDelegationProxy schema overrides,
                       EasEvent.getAttester env.uid,
                       EasEvent.isAttestationValid env.uid]
            error := none }
  | SignatureType.offchain =>
      { events := [EasEvent.signOffchainAttestationCall options.fromAddr,
                   EasEvent.verifyOffchainAttestationSignatureCall
                     options.fromAddr]
        error := none }

/-- `expectMultiAttestations` (eas.ts lines 209–345): the batched
attestation orchestrator.  In the delegated case the nonce is queried
once before the loops and incremented locally per item; the offchain case
throws before doing anything. -/
def expectMultiAttestations (requests : List MultiAttestationRequest)
    (options : RequestOptions) (env : Env) : Outcome :=
  let signatureType := options.signatureType.getD SignatureType.direct
  let deadline := options.deadline.getD NO_EXPIRATION
  let overrides := mkOverrides options.maxPriorityFeePerGas options.maxFeePerGas
  match signatureType with
  | SignatureType.direct =>
      { events := EasEvent.submitMultiAttest ::
                    env.uids.map EasEvent.isAttestationValid
        error := none }
  | SignatureType.delegated =>
      { events := EasEvent.getNonce options.fromAddr ::
                    (delegatedAttestGroups options.fromAddr env.nonce
                        requests).1 ++
                    [EasEvent.submitMultiAttestByDelegation overrides] ++
                    env.uids.map EasEvent.isAttestationValid
        error := none }
  | SignatureType.delegatedProxy =>
      match env.proxy with
      | none => { events := [], error := some "Invalid proxy" }
      | some _ =>
          { events := proxyAttestGroups options.fromAddr deadline requests ++
                        [EasEvent.submitMultiAttestByDelegationProxy overrides]
                        ++ env.uids.map EasEvent.getAttester
                        ++ env.uids.map EasEvent.isAttestationValid
            error := none }
  | SignatureType.offchain =>
      { events := []
        error := some "Offchain batch attestations are unsupported" }

/-- `expectRevocation` (eas.ts lines 347–430): the single-revocation
orchestrator.  Its switch has no offchain case, so the offchain style
falls through to the post-switch check. -/
def expectRevocation (schema : String) (request : RevocationRequestData)
    (options : RequestOptions) (env : Env) : Outcome :=
  let signatureType := options.signatureType.getD SignatureType.direct
  let deadline := options.deadline.getD NO_EXPIRATION
  let overrides := mkOverrides options.maxPriorityFeePerGas options.maxFeePerGas
  match signatureType with
  | SignatureType.direct =>
      { events := [EasEvent.submitRevoke overrides,
                   EasEvent.isAttestationRevoked request.uid]
        error := none }
  | SignatureType.delegated =>
      let params : DelegatedRevocationParams :=
        { schema := schema, uid := request.uid, nonce := env.nonce }
      { events := [EasEvent.getNonce options.fromAddr,
                   EasEvent.signDelegatedRevocation params,
                   EasEvent.verifyDelegatedRevocationSignature options.fromAddr,
                   EasEvent.submitRevokeByDelegation overrides,
                   EasEvent.isAttestationRevoked request.uid]
        error := none }
  | SignatureType.delegatedProxy =>
      match env.proxy with
      | none => { events := [], error := some "Invalid proxy" }
      | some _ =>
          let params : DelegatedProxyRevocationParams :=
            { schema := schema, uid := request.uid, deadline := deadline }
          { events := [EasEvent.signDelegatedProxyRevocation params,
                       EasEvent.verifyDelegatedProxyRevocationSignature
                         options.fromAddr,
                       EasEvent.submitRevokeByDelegationProxy overrides,
                       EasEvent.isAttestationRevoked request.uid]
            error := none }
  | SignatureType.offchain =>
      { events := [EasEvent.isAttestationRevoked request.uid]
        error := none }

/-- `expectMultiRevocations` (eas.ts lines 432–540): the batched
revocation orchestrator.  Its switch has no offchain case and no default,
so the offchain style silently skips to the post-switch checks. -/
def expectMultiRevocations (requests : List MultiRevocationRequest)
    (options : RequestOptions) (env : Env) : Outcome :=
  let signatureType := options.signatureType.getD SignatureType.direct
  let deadline := options.deadline.getD NO_EXPIRATION
  let overrides := mkOverrides options.maxPriorityFeePerGas options.maxFeePerGas
  match signatureType with
  | SignatureType.direct =>
      { events := EasEvent.submitMultiRevoke :: revocationPostChecks requests
        error := none }
  | SignatureType.delegated =>
      { events := EasEvent.getNonce options.fromAddr ::
                    (delegatedRevokeGroups options.fromAddr env.nonce
                        requests).1 ++
                    [EasEvent.submitMultiRevokeByDelegation overrides] ++
                    revocationPostChecks requests
        error := none }
  | SignatureType.delegatedProxy =>
      match env.proxy with
      | none => { events := [], error := some "Invalid proxy" }
      | some _ =>
          { events := proxyRevokeGroups options.fromAddr deadline requests ++
                        [EasEvent.submitMultiRevokeByDelegationProxy overrides]
                        ++ revocationPostChecks requests
            error := none }
  | SignatureType.offchain =>
      { events := revocationPostChecks requests
        error := none }

/-- Modelled from the spec: `OFFCHAIN_ATTESTATION_VERSION`, the protocol
version tag of offchain attestations (imported from src/offchain, not
among the provided sources). -/
def OFFCHAIN_ATTESTATION_VERSION : Nat := 1

/-- The canonical field tuple of an offchain attestation: the fields
passed to `signOffchainAttestation` (eas.ts lines 178–190). -/
structure OffchainAttestationParams where
  version : Nat
  schema : String
  recipient : String
  time : Nat
  expirationTime : Nat
  revocable : Bool
  refUID : String
  data : String
deriving DecidableEq, Repr

/-- Modelled from the spec: the Canonical Encoder — "serializes
attestation fields into the exact byte layout the ledger's hashing
function expects.  Pure, no I/O."  (src/utils is not among the provided
sources.)  The packed byte sequence is modelled as a delimited string of
the fields in their canonical order. -/
def encodeOffchainFields (version : Nat) (schema recipient : String)
    (time expirationTime : Nat) (revocable : Bool) (refUID data : String) :
    String :=
  toString version ++ ";" ++ schema ++ ";" ++ recipient ++ ";" ++
    toString time ++ ";" ++ toString expirationTime ++ ";" ++
    (if revocable then "1" else "0") ++ ";" ++ refUID ++ ";" ++ data

/-- Modelled from the spec: `getOffchainUID` / the UID Deriver —
"deriveUID(version, schema, recipient, time, expirationTime, revocable,
refUID, data) -> UID.  Deterministic, pure, total (never fails)."
(src/utils is not among the provided sources.)  The ledger's keccak-based
content hash is modelled as the canonical encoding of the same field
tuple; totality is witnessed by the return type being `String`, not
`Option String`. -/
def getOffchainUID (version : Nat) (schema recipient : String)
    (time expirationTime : Nat) (revocable : Bool) (refUID data : String) :
    String :=
  "uid:" ++ encodeOffchainFields version schema recipient time
    expirationTime revocable refUID data

/-- Modelled from the spec: the typed-data digest of the offchain
attestation payload that the key holder signs (Domain Builder + Offchain
Signer; src/offchain is not among the provided sources). -/
def offchainTypedDataHash (p : OffchainAttestationParams) : String :=
  "typedDataHash:" ++ encodeOffchainFields p.version p.schema p.recipient
    p.time p.expirationTime p.revocable p.refUID p.data

/-- An ECDSA signature, modelled abstractly as the digest that was signed
together with the address of the key that signed it. -/
structure OffchainSignature where
  signedHash : String
  signer : String
deriving DecidableEq, Repr

/-- Modelled from the spec: `verification recovers a signer address from
(hash, signature)`.  Recovery over the digest that was actually signed
yields the signing key's address; recovery over any other digest yields
some other address. -/
def recoverAddress (hash : String) (sig : OffchainSignature) : String :=
  if hash = sig.signedHash then sig.signer
  else "0xrecovered:" ++ hash ++ ":" ++ sig.signer

/-- The response of `signOffchainAttestation`: the embedded uid, the
signed message and the signature (the domain is a function of the
environment and plays no role in the claims). -/
structure SignedOffchainAttestation where
  uid : String
  message : OffchainAttestationParams
  signature : OffchainSignature
deriving DecidableEq, Repr

/-- Modelled from the spec: `signOffchainAttestation(fields, signerKey)
-> (uid, signature, domain)` where `uid = deriveUID(...)` is computed
over the same canonical fields being signed (src/offchain is not among
the provided sources). -/
def signOffchainAttestation (p : OffchainAttestationParams)
    (signer : String) : SignedOffchainAttestation where
  uid := getOffchainUID p.version p.schema p.recipient p.time
    p.expirationTime p.revocable p.refUID p.data
  message := p
  signature := { signedHash := offchainTypedDataHash p, signer := signer }

/-- Modelled from the spec: `verifyOffchainAttestationSignature(
claimedAddress, response) -> bool` "recomputes the UID independently and
fails closed if it disagrees with the response's embedded UID, even if
the raw signature recovers correctly" (src/offchain is not among the
provided sources). -/
def verifyOffchainAttestationSignature (attester : String)
    (response : SignedOffchainAttestation) : Bool :=
  (response.uid ==
      getOffchainUID response.message.version response.message.schema
        response.message.recipient response.message.time
        response.message.expirationTime response.message.revocable
        response.message.refUID response.message.data) &&
    (recoverAddress (offchainTypedDataHash response.message)
        response.signature == attester)

/-- Is the event a query of the external nonce source? -/
def isNonceQuery : EasEvent → Bool
  | EasEvent.getNonce _ => true
  | _ => false

/-- The nonce embedded by a signing event, if the event is one. -/
def nonceOfSign : EasEvent → Option Nat
  | EasEvent.signDelegatedAttestation p => some p.nonce
  | EasEvent.signDelegatedRevocation p => some p.nonce
  | _ => none

/-- The nonces embedded by the signing events of a trace, in trace
order. -/
def embeddedNonces (events : List EasEvent) : List Nat :=
  events.filterMap nonceOfSign

/-- Is the event a signing call (any of the signature styles)? -/
def isSignEvent : EasEvent → Bool
  | EasEvent.signDelegatedAttestation _ => true
  | EasEvent.signDelegatedProxyAttestation _ => true
  | EasEvent.signDelegatedRevocation _ => true
  | EasEvent.signDelegatedProxyRevocation _ => true
  | EasEvent.signOffchainAttestationCall _ => true
  | _ => false

/-- Is the event a submission to the ledger? -/
def isSubmitEvent : EasEvent → Bool
  | EasEvent.submitAttest _ _ _ => true
  | EasEvent.submitAttestByDelegation _ _ => true
  | EasEvent.submitAttestByDelegationProxy _ _ => true
  | EasEvent.submitMultiAttest => true
  | EasEvent.submitMultiAttestByDelegation _ => true
  | EasEvent.submitMultiAttestByDelegationProxy _ => true
  | EasEvent.submitRevoke _ => true
  | EasEvent.submitRevokeByDelegation _ => true
  | EasEvent.submitRevokeByDelegationProxy _ => true
  | EasEvent.submitMultiRevoke => true
  | EasEvent.submitMultiRevokeByDelegation _ => true
  | EasEvent.submitMultiRevokeByDelegationProxy _ => true
  | _ => false

/-- Total number of attestation items across the schema groups of a
batch. -/
def totalAttestCount (requests : List MultiAttestationRequest) : Nat :=
  (requests.map fun group => group.data.length).sum

/-- Total number of revocation items across the schema groups of a
batch. -/
def totalRevokeCount (requests : List MultiRevocationRequest) : Nat :=
  (requests.map fun group => group.data.length).sum

theorem range'_append_one (s m n : Nat) :
    List.range' s m ++ List.range' (s + m) n = List.range' s (m + n) := by
  have h := List.range'_append s m n 1
  simp [Nat.add_comm] at h
  simpa [Nat.add_comm] using h

theorem embeddedNonces_append (xs ys : List EasEvent) :
    embeddedNonces (xs ++ ys) = embeddedNonces xs ++ embeddedNonces ys := by
  simp [embeddedNonces, List.filterMap_append]

theorem delegatedAttestItems_spec (schema sender : String)
    (rs : List AttestationRequestData) : ∀ k : Nat,
    embeddedNonces (delegatedAttestItems schema sender k rs).1 =
        List.range' k rs.length ∧
    (delegatedAttestItems schema sender k rs).2 = k + rs.length ∧
    (delegatedAttestItems schema sender k rs).1.filter isNonceQuery = [] := by
  induction rs with
  | nil => intro k; simp [delegatedAttestItems, embeddedNonces]
  | cons r rs ih =>
      intro k
      obtain ⟨h1, h2, h3⟩ := ih (k + 1)
      refine ⟨?_, ?_, ?_⟩
      · simp only [delegatedAttestItems, embeddedNonces, List.filterMap_cons,
          nonceOfSign, List.range'_succ, List.length_cons]
        simpa [embeddedNonces] using h1
      · simp [delegatedAttestItems, h2]; omega
      · simp [delegatedAttestItems, isNonceQuery, h3]

theorem delegatedAttestGroups_spec (sender : String)
    (gs : List MultiAttestationRequest) : ∀ k : Nat,
    embeddedNonces (delegatedAttestGroups sender k gs).1 =
        List.range' k (totalAttestCount gs) ∧
    (delegatedAttestGroups sender k gs).2 = k + totalAttestCount gs ∧
    (delegatedAttestGroups sender k gs).1.filter isNonceQuery = [] := by
  induction gs with
  | nil => intro k; simp [delegatedAttestGroups, embeddedNonces, totalAttestCount]
  | cons g gs ih =>
      intro k
      obtain ⟨i1, i2, i3⟩ := delegatedAttestItems_spec g.schema sender g.data k
      obtain ⟨h1, h2, h3⟩ := ih (k + g.data.length)
      have hcount : totalAttestCount (g :: gs) =
          g.data.length + totalAttestCount gs := by
        simp [totalAttestCount]
      refine ⟨?_, ?_, ?_⟩
      · simp only [delegatedAttestGroups, embeddedNonces_append, i1, i2, h1,
          hcount]
        rw [range'_append_one]
      · simp [delegatedAttestGroups, i2, h2, hcount]; omega
      · simp [delegatedAttestGroups, List.filter_append, i3, i2, h3]

theorem delegatedRevokeItems_spec (schema sender : String)
    (rs : List RevocationRequestData) : ∀ k : Nat,
    embeddedNonces (delegatedRevokeItems schema sender k rs).1 =
        List.range' k rs.length ∧
    (delegatedRevokeItems schema sender k rs).2 = k + rs.length ∧
    (delegatedRevokeItems schema sender k rs).1.filter isNonceQuery = [] := by
  induction rs with
  | nil => intro k; simp [delegatedRevokeItems, embeddedNonces]
  | cons r rs ih =>
      intro k
      obtain ⟨h1, h2, h3⟩ := ih (k + 1)
      refine ⟨?_, ?_, ?_⟩
      · simp [delegatedRevokeItems, embeddedNonces, nonceOfSign,
          List.range'_succ]
        simpa [embeddedNonces] using h1
      · simp [delegatedRevokeItems, h2]; omega
      · simp [delegatedRevokeItems, isNonceQuery, h3]

theorem delegatedRevokeGroups_spec (sender : String)
    (gs : List MultiRevocationRequest) : ∀ k : Nat,
    embeddedNonces (delegatedRevokeGroups sender k gs).1 =
        List.range' k (totalRevokeCount gs) ∧
    (delegatedRevokeGroups sender k gs).2 = k + totalRevokeCount gs ∧
    (delegatedRevokeGroups sender k gs).1.filter isNonceQuery = [] := by
  induction gs with
  | nil => intro k; simp [delegatedRevokeGroups, embeddedNonces, totalRevokeCount]
  | cons g gs ih =>
      intro k
      obtain ⟨i1, i2, i3⟩ := delegatedRevokeItems_spec g.schema sender g.data k
      obtain ⟨h1, h2, h3⟩ := ih (k + g.data.length)
      have hcount : totalRevokeCount (g :: gs) =
          g.data.length + totalRevokeCount gs := by
        simp [totalRevokeCount]
      refine ⟨?_, ?_, ?_⟩
      · simp only [delegatedRevokeGroups, embeddedNonces_append, i1, i2, h1,
          hcount]
        rw [range'_append_one]
      · simp [delegatedRevokeGroups, i2, h2, hcount]; omega
      · simp [delegatedRevokeGroups, List.filter_append, i3, i2, h3]

theorem embeddedNonces_validChecks (uids : List String) :
    embeddedNonces (uids.map EasEvent.isAttestationValid) = [] := by
  induction uids with
  | nil => simp [embeddedNonces]
  | cons u us ih => simpa [embeddedNonces, nonceOfSign] using ih

theorem filter_isNonceQuery_validChecks (uids : List String) :
    (uids.map EasEvent.isAttestationValid).filter isNonceQuery = [] := by
  induction uids with
  | nil => simp
  | cons u us ih => simpa [isNonceQuery] using ih

theorem mem_postChecks_shape (requests : List MultiRevocationRequest)
    (e : EasEvent) (he : e ∈ revocationPostChecks requests) :
    (∃ u, e = EasEvent.isAttestationValid u) ∨
    (∃ u, e = EasEvent.isAttestationRevoked u) := by
  simp only [revocationPostChecks, List.mem_flatMap] at he
  obtain ⟨g, _, r, _, hmem⟩ := he
  simp only [List.mem_cons, List.mem_singleton] at hmem
  rcases hmem with h | h | h
  · exact Or.inl ⟨r.uid, h⟩
  · exact Or.inr ⟨r.uid, h⟩
  · cases h

theorem embeddedNonces_postChecks (requests : List MultiRevocationRequest) :
    embeddedNonces (revocationPostChecks requests) = [] := by
  rw [embeddedNonces, List.filterMap_eq_nil_iff]
  intro e he
  rcases mem_postChecks_shape requests e he with ⟨u, h⟩ | ⟨u, h⟩ <;>
    subst h <;> rfl

theorem filter_isNonceQuery_postChecks (requests : List MultiRevocationRequest) :
    (revocationPostChecks requests).filter isNonceQuery = [] := by
  rw [List.filter_eq_nil_iff]
  intro e he
  rcases mem_postChecks_shape requests e he with ⟨u, h⟩ | ⟨u, h⟩ <;>
    subst h <;> simp [isNonceQuery]

/-- C1: for every delegated (non-proxy) batch of attestation or revocation
requests from one signer, the orchestrator queries the external nonce
source exactly once, at the start, obtaining nonce `n`, and the signed
requests embed nonces `n, n+1, …, n+N-1` in request order, with no
external nonce query between items. -/
theorem delegatedBatch_nonce_sequencing
    (areqs : List MultiAttestationRequest) (rreqs : List MultiRevocationRequest)
    (options : RequestOptions) (env : Env)
    (hsig : options.signatureType = some SignatureType.delegated) :
    ((expectMultiAttestations areqs options env).error = none ∧
      (expectMultiAttestations areqs options env).events.head? =
        some (EasEvent.getNonce options.fromAddr) ∧
      (expectMultiAttestations areqs options env).events.filter isNonceQuery =
        [EasEvent.getNonce options.fromAddr] ∧
      embeddedNonces (expectMultiAttestations areqs options env).events =
        List.range' env.nonce (totalAttestCount areqs)) ∧
    ((expectMultiRevocations rreqs options env).error = none ∧
      (expectMultiRevocations rreqs options env).events.head? =
        some (EasEvent.getNonce options.fromAddr) ∧
      (expectMultiRevocations rreqs options env).events.filter isNonceQuery =
        [EasEvent.getNonce options.fromAddr] ∧
      embeddedNonces (expectMultiRevocations rreqs options env).events =
        List.range' env.nonce (totalRevokeCount rreqs)) := by
  obtain ⟨a1, a2, a3⟩ :=
    delegatedAttestGroups_spec options.fromAddr areqs env.nonce
  obtain ⟨r1, r2, r3⟩ :=
    delegatedRevokeGroups_spec options.fromAddr rreqs env.nonce
  constructor
  · refine ⟨?_, ?_, ?_, ?_⟩
    · simp [expectMultiAttestations, hsig]
    · simp [expectMultiAttestations, hsig]
    · simp only [expectMultiAttestations, hsig, Option.getD_some]
      simp [List.filter_append, isNonceQuery, a3,
        filter_isNonceQuery_validChecks]
    · simp only [expectMultiAttestations, hsig, Option.getD_some]
      simp only [embeddedNonces, List.filterMap_cons, List.filterMap_append,
        nonceOfSign]
      simp only [embeddedNonces] at a1
      simp [a1,
        show (env.uids.map EasEvent.isAttestationValid).filterMap nonceOfSign
            = [] from embeddedNonces_validChecks env.uids]
  · refine ⟨?_, ?_, ?_, ?_⟩
    · simp [expectMultiRevocations, hsig]
    · simp [expectMultiRevocations, hsig]
    · simp only [expectMultiRevocations, hsig, Option.getD_some]
      simp [List.filter_append, isNonceQuery, r3,
        filter_isNonceQuery_postChecks]
    · simp only [expectMultiRevocations, hsig, Option.getD_some]
      simp only [embeddedNonces, List.filterMap_cons, List.filterMap_append,
        nonceOfSign]
      simp only [embeddedNonces] at r1
      simp [r1,
        show (revocationPostChecks rreqs).filterMap nonceOfSign = []
          from embeddedNonces_postChecks rreqs]

/-- A concrete attestation request with every optional field omitted. -/
def sampleRequestData : AttestationRequestData where
  recipient := "0x1111"
  data := some "0xdeadbeef"
  expirationTime := none
  revocable := none
  refUID := none
  value := none

/-- A concrete attestation request with every optional field supplied. -/
def sampleRequestData2 : AttestationRequestData where
  recipient := "0x2222"
  data := some "0x"
  expirationTime := some 99
  revocable := some false
  refUID := some "0xref"
  value := some 7

/-- A concrete batch of two schema groups holding three items in total. -/
def sampleAttestBatch : List MultiAttestationRequest :=
  [{ schema := "0xschemaA", data := [sampleRequestData, sampleRequestData2] },
   { schema := "0xschemaB", data := [sampleRequestData] }]

/-- A concrete revocation batch of one schema group with two items. -/
def sampleRevokeBatch : List MultiRevocationRequest :=
  [{ schema := "0xschemaA"
     data := [{ uid := "0xu1", value := none },
              { uid := "0xu2", value := some 1 }] }]

/-- Concrete options selecting the delegated signature style. -/
def sampleDelegatedOptions : RequestOptions where
  signatureType := some SignatureType.delegated
  deadline := none
  fromAddr := "0xsender"
  value := none
  maxPriorityFeePerGas := none
  maxFeePerGas := none

/-- Concrete options selecting the offchain signature style. -/
def sampleOffchainOptions : RequestOptions where
  signatureType := some SignatureType.offchain
  deadline := none
  fromAddr := "0xsender"
  value := none
  maxPriorityFeePerGas := none
  maxFeePerGas := none

/-- Concrete options selecting the delegated-proxy signature style. -/
def sampleProxyOptions : RequestOptions where
  signatureType := some SignatureType.delegatedProxy
  deadline := some 2000
  fromAddr := "0xsender"
  value := none
  maxPriorityFeePerGas := none
  maxFeePerGas := none

/-- A concrete environment whose nonce source answers 5 and which has no
proxy configured. -/
def sampleEnv : Env where
  nonce := 5
  uid := "0xuid"
  uids := ["0xa", "0xb"]
  proxy := none
  now := 1000

/-- Witness for the C1 theorem: on a concrete three-item delegated batch
starting at nonce 5 the embedded nonces are 5, 6, 7 and the only nonce
query is the initial one. -/
theorem delegatedBatch_nonce_sequencing_witness :
    sampleDelegatedOptions.signatureType = some SignatureType.delegated ∧
    embeddedNonces (expectMultiAttestations sampleAttestBatch
        sampleDelegatedOptions sampleEnv).events = [5, 6, 7] ∧
    (expectMultiAttestations sampleAttestBatch sampleDelegatedOptions
        sampleEnv).events.filter isNonceQuery =
      [EasEvent.getNonce "0xsender"] ∧
    embeddedNonces (expectMultiRevocations sampleRevokeBatch
        sampleDelegatedOptions sampleEnv).events = [5, 6] := by
  have h := delegatedBatch_nonce_sequencing sampleAttestBatch sampleRevokeBatch
    sampleDelegatedOptions sampleEnv rfl
  exact ⟨rfl, h.1.2.2.2.trans (by decide), h.1.2.2.1,
    h.2.2.2.2.trans (by decide)⟩

/-- C3: invoking batched attestation with the offchain signature style
always fails fast with the descriptive `Error('Offchain batch attestations
are unsupported')` (the spec's UnsupportedOperation), raised before any
signing occurs: the trace of external calls is empty. -/
theorem offchainBatchAttestation_unsupported
    (requests : List MultiAttestationRequest) (options : RequestOptions)
    (env : Env) (hsig : options.signatureType = some SignatureType.offchain) :
    expectMultiAttestations requests options env =
      { events := []
        error := some "Offchain batch attestations are unsupported" } := by
  simp [expectMultiAttestations, hsig]

/-- Witness for the C3 theorem at a concrete batch. -/
theorem offchainBatchAttestation_unsupported_witness :
    expectMultiAttestations sampleAttestBatch sampleOffchainOptions sampleEnv =
      { events := []
        error := some "Offchain batch attestations are unsupported" } :=
  offchainBatchAttestation_unsupported sampleAttestBatch sampleOffchainOptions
    sampleEnv rfl

/-- C4: every proxy-flow request (delegated-proxy attestation or
revocation, single or batch) with no proxy configured for the active
chain raises the fatal `Error('Invalid proxy')` (the spec's
ConfigurationError) immediately, before any signing or signature
verification: the trace of external calls is empty. -/
theorem proxyFlow_missingProxy_configurationError
    (schema : String) (arequest : AttestationRequestData)
    (rrequest : RevocationRequestData)
    (areqs : List MultiAttestationRequest) (rreqs : List MultiRevocationRequest)
    (options : RequestOptions) (env : Env)
    (hsig : options.signatureType = some SignatureType.delegatedProxy)
    (hproxy : env.proxy = none) :
    expectAttestation schema arequest options env =
      { events := [], error := some "Invalid proxy" } ∧
    expectMultiAttestations areqs options env =
      { events := [], error := some "Invalid proxy" } ∧
    expectRevocation schema rrequest options env =
      { events := [], error := some "Invalid proxy" } ∧
    expectMultiRevocations rreqs options env =
      { events := [], error := some "Invalid proxy" } := by
  refine ⟨?_, ?_, ?_, ?_⟩ <;>
    simp [expectAttestation, expectMultiAttestations, expectRevocation,
      expectMultiRevocations, hsig, hproxy]

/-- Witness for the C4 theorem at concrete requests against an
environment with no configured proxy. -/
theorem proxyFlow_missingProxy_configurationError_witness :
    sampleEnv.proxy = none ∧
    expectAttestation "0xschemaA" sampleRequestData sampleProxyOptions
        sampleEnv = { events := [], error := some "Invalid proxy" } ∧
    expectMultiRevocations sampleRevokeBatch sampleProxyOptions sampleEnv =
      { events := [], error := some "Invalid proxy" } := by
  have h := proxyFlow_missingProxy_configurationError "0xschemaA"
    sampleRequestData { uid := "0xu1", value := none } sampleAttestBatch
    sampleRevokeBatch sampleProxyOptions sampleEnv rfl rfl
  exact ⟨rfl, h.1, h.2.2.2⟩

/-- C10: batched revocation with the offchain signature style matches no
case of the dispatch: no error is raised, no signature is produced and
nothing is submitted to the ledger (only the post-switch validity checks
run) — unlike batched offchain attestation, which throws. -/
theorem multiRevocations_offchain_silently_skips
    (rreqs : List MultiRevocationRequest) (areqs : List MultiAttestationRequest)
    (options : RequestOptions) (env : Env)
    (hsig : options.signatureType = some SignatureType.offchain) :
    expectMultiRevocations rreqs options env =
      { events := revocationPostChecks rreqs, error := none } ∧
    ((revocationPostChecks rreqs).all fun e =>
        !(isSignEvent e) && !(isSubmitEvent e)) = true ∧
    (expectMultiAttestations areqs options env).error =
      some "Offchain batch attestations are unsupported" := by
  refine ⟨?_, ?_, ?_⟩
  · simp [expectMultiRevocations, hsig]
  · rw [List.all_eq_true]
    intro e he
    rcases mem_postChecks_shape rreqs e he with ⟨u, h⟩ | ⟨u, h⟩ <;>
      subst h <;> rfl
  · simp [expectMultiAttestations, hsig]

/-- Witness for the C10 theorem at a concrete revocation batch. -/
theorem multiRevocations_offchain_silently_skips_witness :
    expectMultiRevocations sampleRevokeBatch sampleOffchainOptions sampleEnv =
      { events := [EasEvent.isAttestationValid "0xu1",
                   EasEvent.isAttestationRevoked "0xu1",
                   EasEvent.isAttestationValid "0xu2",
                   EasEvent.isAttestationRevoked "0xu2"]
        error := none } ∧
    (expectMultiAttestations sampleAttestBatch sampleOffchainOptions
        sampleEnv).error = some "Offchain batch attestations are unsupported"
    := by
  have h := multiRevocations_offchain_silently_skips sampleRevokeBatch
    sampleAttestBatch sampleOffchainOptions sampleEnv rfl
  exact ⟨h.1.trans (by decide), h.2.2⟩

/-- Counterexample to C2 as stated: with both fee parameters present but
the priority fee equal to 0, the overrides are not passed through — they
are dropped entirely, and the submission call receives no overrides. -/
theorem feeOverrides_bothPresent_counterexample :
    (some (0 : Nat)).isSome = true ∧ (some (1 : Nat)).isSome = true ∧
    mkOverrides (some 0) (some 1) = none ∧
    mkOverrides (some 0) (some 1) ≠
      some { maxPriorityFeePerGas := "0", maxFeePerGas := "1" } ∧
    (expectAttestation "0xschemaA" sampleRequestData
        { signatureType := none, deadline := none, fromAddr := "0xsender",
          value := none, maxPriorityFeePerGas := some 0,
          maxFeePerGas := some 1 } sampleEnv).events =
      [EasEvent.submitAttest "0xschemaA"
          (resolveAttestationRequestData sampleRequestData) none,
       EasEvent.isAttestationValid "0xuid"] := by
  refine ⟨rfl, rfl, by decide, by decide, by decide⟩

/-- C2 (amended): if both fee-override parameters are present and both
nonzero, both are passed through with their values intact (serialized as
decimal strings) to the submission call; if only one of the two is
present — and likewise if either present value is zero — the overrides
object is omitted entirely, with no partial application and no defaulting
of the missing half. -/
theorem feeOverrides_passthrough
    (pv fv : Nat) (q : Option Nat) (schema : String)
    (request : AttestationRequestData) (options : RequestOptions) (env : Env)
    (hpv : pv ≠ 0) (hfv : fv ≠ 0)
    (hsig : options.signatureType = some SignatureType.direct) :
    mkOverrides (some pv) (some fv) =
      some { maxPriorityFeePerGas := bigintToString pv
             maxFeePerGas := bigintToString fv } ∧
    mkOverrides q none = none ∧
    mkOverrides none q = none ∧
    (expectAttestation schema request
        { options with maxPriorityFeePerGas := some pv
                       maxFeePerGas := some fv } env).events =
      [EasEvent.submitAttest schema (resolveAttestationRequestData request)
          (some { maxPriorityFeePerGas := bigintToString pv
                  maxFeePerGas := bigintToString fv }),
       EasEvent.isAttestationValid env.uid] := by
  have hov : mkOverrides (some pv) (some fv) =
      some { maxPriorityFeePerGas := bigintToString pv
             maxFeePerGas := bigintToString fv } := by
    simp [mkOverrides, bigintTruthy, hpv, hfv]
  refine ⟨hov, ?_, ?_, ?_⟩
  · cases q <;> simp [mkOverrides, bigintTruthy]
  · cases q <;> simp [mkOverrides, bigintTruthy]
  · simp [expectAttestation, hsig, hov]

/-- Witness for the amended C2 theorem at concrete nonzero fees 3 and 9. -/
theorem feeOverrides_passthrough_witness :
    mkOverrides (some 3) (some 9) =
      some { maxPriorityFeePerGas := "3", maxFeePerGas := "9" } ∧
    mkOverrides (some 3) none = none ∧
    mkOverrides none (some 3) = none ∧
    (expectAttestation "0xschemaA" sampleRequestData
        { signatureType := some SignatureType.direct, deadline := none,
          fromAddr := "0xsender", value := none,
          maxPriorityFeePerGas := some 3, maxFeePerGas := some 9 }
        sampleEnv).events =
      [EasEvent.submitAttest "0xschemaA"
          (resolveAttestationRequestData sampleRequestData)
          (some { maxPriorityFeePerGas := "3", maxFeePerGas := "9" }),
       EasEvent.isAttestationValid "0xuid"] := by
  have h := feeOverrides_passthrough 3 9 (some 3) "0xschemaA"
    sampleRequestData
    { signatureType := some SignatureType.direct, deadline := none,
      fromAddr := "0xsender", value := none, maxPriorityFeePerGas := none,
      maxFeePerGas := none }
    sampleEnv (by decide) (by decide) rfl
  exact h

/-- C9: when both fee parameters are supplied but at least one of them
equals 0, truthiness testing drops the overrides entirely and the run is
identical to one with no fee parameters supplied at all. -/
theorem zeroFee_dropsOverrides
    (pv fv : Nat) (schema : String) (request : AttestationRequestData)
    (rreqs : List MultiRevocationRequest) (options : RequestOptions)
    (env : Env) (hzero : pv = 0 ∨ fv = 0) :
    mkOverrides (some pv) (some fv) = none ∧
    expectAttestation schema request
        { options with maxPriorityFeePerGas := some pv
                       maxFeePerGas := some fv } env =
      expectAttestation schema request
        { options with maxPriorityFeePerGas := none
                       maxFeePerGas := none } env ∧
    expectMultiRevocations rreqs
        { options with maxPriorityFeePerGas := some pv
                       maxFeePerGas := some fv } env =
      expectMultiRevocations rreqs
        { options with maxPriorityFeePerGas := none
                       maxFeePerGas := none } env := by
  have hov : mkOverrides (some pv) (some fv) = none := by
    rcases hzero with h | h <;> subst h <;>
      simp [mkOverrides, bigintTruthy]
  refine ⟨hov, ?_, ?_⟩
  · rcases hzero with h | h <;> subst h <;>
      simp [expectAttestation, mkOverrides, bigintTruthy]
  · rcases hzero with h | h <;> subst h <;>
      simp [expectMultiRevocations, mkOverrides, bigintTruthy]

/-- Witness for the C9 theorem with fees 0 and 7. -/
theorem zeroFee_dropsOverrides_witness :
    ((0 : Nat) = 0 ∨ (7 : Nat) = 0) ∧
    mkOverrides (some 0) (some 7) = none ∧
    expectMultiRevocations sampleRevokeBatch
        { sampleDelegatedOptions with maxPriorityFeePerGas := some 0
                                      maxFeePerGas := some 7 } sampleEnv =
      expectMultiRevocations sampleRevokeBatch
        { sampleDelegatedOptions with maxPriorityFeePerGas := none
                                      maxFeePerGas := none } sampleEnv := by
  have h := zeroFee_dropsOverrides 0 7 "0xschemaA" sampleRequestData
    sampleRevokeBatch sampleDelegatedOptions sampleEnv (Or.inl rfl)
  exact ⟨Or.inl rfl, h.1, h.2.2⟩

/-- C8: omitted optional fields resolve to the documented defaults at
construction time — `expirationTime` to the never-expires sentinel
`NO_EXPIRATION = 0`, `revocable` to `true`, `refUID` to the all-zero
sentinel `ZERO_BYTES32`, and `value` to zero — both in the single-request
destructuring and in the batched delegated signing loop. -/
theorem omittedFields_resolveToDefaults
    (r : AttestationRequestData) (schema sender : String) (nonce : Nat)
    (hexp : r.expirationTime = none) (hrev : r.revocable = none)
    (href : r.refUID = none) (hval : r.value = none) :
    NO_EXPIRATION = 0 ∧
    (resolveAttestationRequestData r).expirationTime = NO_EXPIRATION ∧
    (resolveAttestationRequestData r).revocable = true ∧
    (resolveAttestationRequestData r).refUID = ZERO_BYTES32 ∧
    (resolveAttestationRequestData r).value = 0 ∧
    (delegatedAttestItems schema sender nonce [r]).1 =
      [EasEvent.signDelegatedAttestation
          { schema := schema, recipient := r.recipient
            expirationTime := NO_EXPIRATION, revocable := true
            refUID := ZERO_BYTES32, data := r.data, nonce := nonce },
       EasEvent.verifyDelegatedAttestationSignature sender] := by
  refine ⟨rfl, ?_, ?_, ?_, ?_, ?_⟩ <;>
    simp [resolveAttestationRequestData, delegatedAttestItems, hexp, hrev,
      href, hval]

/-- Witness for the C8 theorem at a concrete request with every optional
field omitted. -/
theorem omittedFields_resolveToDefaults_witness :
    (resolveAttestationRequestData sampleRequestData).expirationTime = 0 ∧
    (resolveAttestationRequestData sampleRequestData).revocable = true ∧
    (resolveAttestationRequestData sampleRequestData).refUID =
      ZERO_BYTES32 ∧
    (resolveAttestationRequestData sampleRequestData).value = 0 := by
  have h := omittedFields_resolveToDefaults sampleRequestData "0xschemaA"
    "0xsender" 5 rfl rfl rfl rfl
  exact ⟨h.2.1, h.2.2.1, h.2.2.2.1, h.2.2.2.2.1⟩

/-- C5: the uid returned by `signOffchainAttestation` equals the UID
derived via `getOffchainUID` over exactly the canonical fields that are
signed — the signed message is the input field tuple and the embedded
uid is the UID derived from that same tuple. -/
theorem signOffchain_uid_consistent (p : OffchainAttestationParams)
    (signer : String) :
    (signOffchainAttestation p signer).uid =
      getOffchainUID p.version p.schema p.recipient p.time p.expirationTime
        p.revocable p.refUID p.data ∧
    (signOffchainAttestation p signer).message = p :=
  ⟨rfl, rfl⟩

/-- C6: `verifyOffchainAttestationSignature` recomputes the UID
independently and returns false whenever the response's embedded UID
disagrees with the recomputed one — even when the embedded UID was
mutated after signing and the raw signature still recovers the claimed
address. -/
theorem verifyOffchain_rejects_mutatedUID (p : OffchainAttestationParams)
    (signer mutatedUID : String)
    (hmut : mutatedUID ≠ getOffchainUID p.version p.schema p.recipient p.time
        p.expirationTime p.revocable p.refUID p.data) :
    recoverAddress
        (offchainTypedDataHash
          ({ signOffchainAttestation p signer with
              uid := mutatedUID }).message)
        ({ signOffchainAttestation p signer with
            uid := mutatedUID }).signature = signer ∧
    verifyOffchainAttestationSignature signer
        { signOffchainAttestation p signer with uid := mutatedUID } =
      false := by
  constructor
  · simp [signOffchainAttestation, recoverAddress]
  · simp [verifyOffchainAttestationSignature, signOffchainAttestation, hmut]

/-- A concrete offchain attestation field tuple. -/
def sampleOffchainParams : OffchainAttestationParams where
  version := OFFCHAIN_ATTESTATION_VERSION
  schema := "0xaa"
  recipient := "0x1111"
  time := 1000
  expirationTime := 0
  revocable := true
  refUID := ZERO_BYTES32
  data := "0x"

/-- Witness for the C6 theorem: mutating the embedded uid of a concretely
signed offchain attestation makes verification return false although the
raw signature still recovers the signer. -/
theorem verifyOffchain_rejects_mutatedUID_witness :
    "0xmutant" ≠ getOffchainUID sampleOffchainParams.version
        sampleOffchainParams.schema sampleOffchainParams.recipient
        sampleOffchainParams.time sampleOffchainParams.expirationTime
        sampleOffchainParams.revocable sampleOffchainParams.refUID
        sampleOffchainParams.data ∧
    verifyOffchainAttestationSignature "0xalice"
        { signOffchainAttestation sampleOffchainParams "0xalice" with
            uid := "0xmutant" } = false := by
  have hne : "0xmutant" ≠ getOffchainUID sampleOffchainParams.version
      sampleOffchainParams.schema sampleOffchainParams.recipient
      sampleOffchainParams.time sampleOffchainParams.expirationTime
      sampleOffchainParams.revocable sampleOffchainParams.refUID
      sampleOffchainParams.data := by decide
  have h := verifyOffchain_rejects_mutatedUID sampleOffchainParams "0xalice"
    "0xmutant" hne
  exact ⟨hne, h.2⟩

/-- C7: UID derivation is deterministic, pure and total: any two
invocations of `getOffchainUID` with pairwise identical arguments in
identical order produce identical (byte-identical) output; totality and
purity hold by construction, the derivation being a function into
`String` with no failure outcome and no state. -/
theorem getOffchainUID_deterministic
    (v v' : Nat) (s s' r r' : String) (t t' e e' : Nat) (rev rev' : Bool)
    (ref ref' d d' : String)
    (hv : v = v') (hs : s = s') (hr : r = r') (ht : t = t') (he : e = e')
    (hrev : rev = rev') (href : ref = ref') (hd : d = d') :
    getOffchainUID v s r t e rev ref d =
      getOffchainUID v' s' r' t' e' rev' ref' d' := by
  subst hv hs hr ht he hrev href hd
  rfl

/-- Witness for the C7 theorem: two invocations at the identical concrete
field tuple of the spec's §8 scenario agree. -/
theorem getOffchainUID_deterministic_witness :
    getOffchainUID 1 "0xaa" "0x1111" 1000 0 true ZERO_BYTES32 "0x" =
      getOffchainUID 1 "0xaa" "0x1111" 1000 0 true ZERO_BYTES32 "0x" :=
  getOffchainUID_deterministic 1 1 "0xaa" "0xaa" "0x1111" "0x1111" 1000 1000
    0 0 true true ZERO_BYTES32 ZERO_BYTES32 "0x" "0x" rfl rfl rfl rfl rfl
    rfl rfl rfl
